import Mathlib

/-!
# KYC decision engine — shallow embedding

A shallow embedding of the KYC rule evaluators of the payments-ops demo
repository, and proofs about them.

* `evaluateKycV1` embeds `evaluateKycV1` from `src/logic/kycRules.v1.ts`.
* `evaluateKycV2` embeds `evaluateKycV2` from `src/logic/kycRules.v2.ts`,
  decomposed into one Lean definition per statement block of the source,
  threaded through an explicit `(decision, reasons)` state.
* `useKycEngine` embeds the version-selecting hook from
  `src/logic/useKycEngine.ts`, as a pure function of the feature-flag state.

JavaScript numbers are modelled as `Rat` (every finite double is a rational;
`NaN` inputs are declared undefined behaviour by the source's own contract).
Optional fields are `Option`s; JavaScript truthiness of an optional number is
`x ≠ 0` on the present value, of an optional boolean it is `some true`.
Template-literal interpolation of a number is modelled by `toString` on `Rat`;
`(100000).toLocaleString()` is the constant string "100,000".
-/

/-- `KycDecision` from `kycRules.v1.ts`: exactly three decision values. -/
inductive KycDecision where
  | approve
  | manual_review
  | deny
deriving DecidableEq, Repr

/-- Severity order used by the spec: approve < manual_review < deny. -/
def severity : KycDecision → Nat
  | .approve => 0
  | .manual_review => 1
  | .deny => 2

/-- `KycResult` from `kycRules.v1.ts`. -/
structure KycResult where
  decision : KycDecision
  reasons : List String
deriving DecidableEq, Repr

/-- `KycInput` from `kycRules.v1.ts` (with the `version` discriminator the
selector attaches; the evaluator never reads it). -/
structure KycInput where
  riskScore : Rat
  country : String
  amount : Option Rat
  version : String
deriving DecidableEq, Repr

/-- `KycInputV2` from `kycRules.v2.ts`: the v1 fields plus `isPep`,
`velocity`, `sanctionsList`. -/
structure KycInputV2 where
  riskScore : Rat
  country : String
  amount : Option Rat
  isPep : Option Bool
  velocity : Option Rat
  sanctionsList : Option Bool
  version : String
deriving DecidableEq, Repr

/-- JavaScript truthiness of an optional boolean field. -/
def truthyBool : Option Bool → Bool
  | none => false
  | some b => b

/-- The mutable evaluation state of either evaluator: the `decision`
variable and the `reasons` array. -/
abbrev KycState := KycDecision × List String

/-- `restrictedCountries` from both rule files. -/
def restrictedCountries : List String := ["XX", "YY", "ZZ"]

/-- `evaluateKycV1` from `kycRules.v1.ts`, statement by statement:
high-risk early return, medium-risk accumulation, restricted-country early
return, low-risk closing reason. -/
def evaluateKycV1 (input : KycInput) : KycResult :=
  if input.riskScore ≥ 80 then
    { decision := .deny, reasons := ["Risk score 80+"] }
  else
    let s : KycState :=
      if input.riskScore ≥ 50 ∧ input.riskScore < 80 then
        (.manual_review, ["Risk score 50-79"])
      else
        (.approve, [])
    if restrictedCountries.contains input.country then
      { decision := .deny, reasons := s.2 ++ ["Restricted country: " ++ input.country] }
    else if s.1 = .approve ∧ input.riskScore < 50 then
      { decision := s.1, reasons := s.2 ++ ["Low risk score"] }
    else
      { decision := s.1, reasons := s.2 }

/-- `amountThreshold` from `kycRules.v2.ts`. -/
def amountThreshold : Rat := 100000

/-- `velocityThreshold` from `kycRules.v2.ts`. -/
def velocityThreshold : Rat := 10

/-- v2 step 1, sanctions check: `if (input.sanctionsList) { ... return }`.
`Sum.inl` is an early return, `Sum.inr` continues with the state. -/
def v2sanctions (input : KycInputV2) (s : KycState) : Sum KycResult KycState :=
  if truthyBool input.sanctionsList then
    .inl { decision := .deny, reasons := s.2 ++ ["On sanctions list"] }
  else
    .inr s

/-- v2 step 2, PEP check: sets `manual_review` and appends, no return. -/
def v2pep (input : KycInputV2) (s : KycState) : KycState :=
  if truthyBool input.isPep then
    (.manual_review, s.2 ++ ["PEP (Politically Exposed Person)"])
  else
    s

/-- v2 step 3, high risk score: `riskScore >= 75` denies and returns. -/
def v2highRisk (input : KycInputV2) (s : KycState) : Sum KycResult KycState :=
  if input.riskScore ≥ 75 then
    .inl { decision := .deny, reasons := s.2 ++ ["Risk score 75+"] }
  else
    .inr s

/-- v2 step 4, medium risk score: `50 <= riskScore < 75` upgrades `approve`
to `manual_review` and appends, no return. -/
def v2mediumRisk (input : KycInputV2) (s : KycState) : KycState :=
  if input.riskScore ≥ 50 ∧ input.riskScore < 75 then
    ((if s.1 = .approve then .manual_review else s.1), s.2 ++ ["Risk score 50-74"])
  else
    s

/-- v2 step 5, amount threshold: `input.amount && input.amount > amountThreshold`
(truthy-number guard), upgrades `approve` to `manual_review` and appends. -/
def v2amount (input : KycInputV2) (s : KycState) : KycState :=
  match input.amount with
  | some a =>
    if a ≠ 0 ∧ a > amountThreshold then
      ((if s.1 = .approve then .manual_review else s.1), s.2 ++ ["Amount exceeds 100,000"])
    else
      s
  | none => s

/-- The velocity reason string, `` `High transaction velocity: ${input.velocity} in 24h` ``. -/
def velocityReason (v : Rat) : String :=
  "High transaction velocity: " ++ toString v ++ " in 24h"

/-- v2 step 6, velocity threshold: truthy `velocity` above `velocityThreshold`
upgrades `approve` to `manual_review` and appends. -/
def v2velocity (input : KycInputV2) (s : KycState) : KycState :=
  match input.velocity with
  | some v =>
    if v ≠ 0 ∧ v > velocityThreshold then
      ((if s.1 = .approve then .manual_review else s.1), s.2 ++ [velocityReason v])
    else
      s
  | none => s

/-- v2 step 7, country restriction: denies and returns. -/
def v2country (input : KycInputV2) (s : KycState) : Sum KycResult KycState :=
  if restrictedCountries.contains input.country then
    .inl { decision := .deny, reasons := s.2 ++ ["Restricted country: " ++ input.country] }
  else
    .inr s

/-- `needle` occurs as a contiguous run inside `hay` (character lists). -/
def charsContain (needle : List Char) : List Char → Bool
  | [] => needle.isEmpty
  | c :: rest => needle.isPrefixOf (c :: rest) || charsContain needle rest

/-- `r.includes(needle)` on strings: `needle` occurs as a contiguous
substring of `hay`. -/
def strContains (hay needle : String) : Bool :=
  charsContain needle.data hay.data

/-- v2 step 8, combined risk factors: `riskScore >= 60` and truthy `amount`
above `amountThreshold * 0.5`; upgrades `approve` to `manual_review`; appends
the combined reason only if no existing reason contains "Risk score" or
"Amount". -/
def v2combined (input : KycInputV2) (s : KycState) : KycState :=
  match input.amount with
  | some a =>
    if input.riskScore ≥ 60 ∧ a ≠ 0 ∧ a > amountThreshold * (1/2) then
      ((if s.1 = .approve then .manual_review else s.1),
        if ¬ (s.2.any fun r => strContains r "Risk score" || strContains r "Amount") then
          s.2 ++ ["Combined risk factors: medium risk score + high amount"]
        else
          s.2)
    else
      s
  | none => s

/-- v2 step 9, low-risk closing reason: appended when the decision is still
`approve`, `riskScore < 50`, and `isPep` is falsy. -/
def v2lowRisk (input : KycInputV2) (s : KycState) : KycState :=
  if s.1 = .approve ∧ input.riskScore < 50 ∧ ¬ truthyBool input.isPep then
    (s.1, s.2 ++ ["Low risk profile"])
  else
    s

/-- `evaluateKycV2` from `kycRules.v2.ts`: the nine steps in source order,
with the three early returns of steps 1, 3 and 7. -/
def evaluateKycV2 (input : KycInputV2) : KycResult :=
  match v2sanctions input (.approve, []) with
  | .inl r => r
  | .inr s =>
    match v2highRisk input (v2pep input s) with
    | .inl r => r
    | .inr s =>
      match v2country input (v2velocity input (v2amount input (v2mediumRisk input s))) with
      | .inl r => r
      | .inr s =>
        let s := v2lowRisk input (v2combined input s)
        { decision := s.1, reasons := s.2 }

/-- The `kycVersion` feature-flag value, `'v1' | 'v2'` in `featureFlags.ts`. -/
inductive KycVersion where
  | v1
  | v2
deriving DecidableEq, Repr

/-- The `view` feature-flag value, `'view1' | 'view2'` in `featureFlags.ts`. -/
inductive ViewVersion where
  | view1
  | view2
deriving DecidableEq, Repr

/-- The feature-flag store's state shape from `featureFlags.ts`
(the setter closures act on this state). -/
structure FeatureFlags where
  kycVersion : KycVersion
  view : ViewVersion
  showComponentOutlines : Bool
deriving DecidableEq, Repr

/-- The initial state the store is created with in `featureFlags.ts`:
`kycVersion: 'v1', view: 'view1', showComponentOutlines: false`. -/
def initialFeatureFlags : FeatureFlags :=
  { kycVersion := .v1, view := .view1, showComponentOutlines := false }

/-- `setKycVersion` from `featureFlags.ts`, as a state transformer. -/
def setKycVersion (flags : FeatureFlags) (version : KycVersion) : FeatureFlags :=
  { flags with kycVersion := version }

/-- `KycInputWithoutVersion` from `useKycEngine.ts`: the caller-supplied
profile, lacking the version discriminator. -/
structure KycProfile where
  riskScore : Rat
  country : String
  amount : Option Rat
  isPep : Option Bool
  velocity : Option Rat
  sanctionsList : Option Bool
deriving DecidableEq, Repr

/-- The v1 `inputWithVersion` built by the hook: the profile with the
discriminator `version: 'v1'` attached. -/
def withVersionV1 (p : KycProfile) : KycInput :=
  { riskScore := p.riskScore, country := p.country, amount := p.amount,
    version := "v1" }

/-- The v2 `inputWithVersion` built by the hook: the profile with the
discriminator `version: 'v2'` attached. -/
def withVersionV2 (p : KycProfile) : KycInputV2 :=
  { riskScore := p.riskScore, country := p.country, amount := p.amount,
    isPep := p.isPep, velocity := p.velocity, sanctionsList := p.sanctionsList,
    version := "v2" }

/-- Whether the v2 PEP check fires. -/
def pepB (i : KycInputV2) : Bool := truthyBool i.isPep

/-- Whether the v2 medium-risk check fires. -/
def mediumB (i : KycInputV2) : Bool := decide (i.riskScore ≥ 50 ∧ i.riskScore < 75)

/-- Whether the v2 amount check fires: a truthy amount strictly above 100000. -/
def amountHighB (i : KycInputV2) : Bool :=
  match i.amount with
  | some a => decide (a ≠ 0 ∧ a > amountThreshold)
  | none => false

/-- Whether the v2 velocity check fires: a truthy velocity strictly above 10. -/
def velocityHighB (i : KycInputV2) : Bool :=
  match i.velocity with
  | some v => decide (v ≠ 0 ∧ v > velocityThreshold)
  | none => false

/-- Reason contributed by the v2 PEP check. -/
def pepPart (i : KycInputV2) : List String :=
  if pepB i then ["PEP (Politically Exposed Person)"] else []

/-- Reason contributed by the v2 medium-risk check. -/
def mediumPart (i : KycInputV2) : List String :=
  if mediumB i then ["Risk score 50-74"] else []

/-- Reason contributed by the v2 amount check. -/
def amountPart (i : KycInputV2) : List String :=
  if amountHighB i then ["Amount exceeds 100,000"] else []

/-- Reason contributed by the v2 velocity check. -/
def velocityPart (i : KycInputV2) : List String :=
  match i.velocity with
  | some v => if v ≠ 0 ∧ v > velocityThreshold then [velocityReason v] else []
  | none => []

/-- The reasons accumulated by v2 steps 2, 4, 5 and 6 (PEP, medium risk,
amount, velocity), in check order. -/
def v2AccumulatedReasons (i : KycInputV2) : List String :=
  pepPart i ++ mediumPart i ++ amountPart i ++ velocityPart i

/-- The decision held after v2 steps 2, 4, 5 and 6 when no earlier step
returned: `manual_review` exactly when one of the four checks fired. -/
def v2PreCountryDecision (i : KycInputV2) : KycDecision :=
  if pepB i || mediumB i || amountHighB i || velocityHighB i then
    .manual_review
  else
    .approve

/-- Reason contributed by v2 step 9 when the decision is still `approve`,
the risk score is below 50, and `isPep` is falsy. -/
def lowRiskPart (i : KycInputV2) : List String :=
  if v2PreCountryDecision i = .approve ∧ i.riskScore < 50 ∧ ¬ truthyBool i.isPep then
    ["Low risk profile"]
  else
    []

/-- The successive values taken by the `decision` variable during one
`evaluateKycV2` run: the initial `approve`, the value after each
state-changing step that executes, and the value returned. -/
def decisionTrace (i : KycInputV2) : List KycDecision :=
  match v2sanctions i (.approve, []) with
  | .inl r => [.approve, r.decision]
  | .inr s0 =>
    match v2highRisk i (v2pep i s0) with
    | .inl r => [.approve, (v2pep i s0).1, r.decision]
    | .inr s1 =>
      match v2country i (v2velocity i (v2amount i (v2mediumRisk i s1))) with
      | .inl r =>
        [.approve, s1.1, (v2mediumRisk i s1).1, (v2amount i (v2mediumRisk i s1)).1,
          (v2velocity i (v2amount i (v2mediumRisk i s1))).1, r.decision]
      | .inr s4 =>
        [.approve, s1.1, (v2mediumRisk i s1).1, (v2amount i (v2mediumRisk i s1)).1,
          s4.1, (v2combined i s4).1, (v2lowRisk i (v2combined i s4)).1]

/-- `evaluateKycV2` with the combined-risk-factors block (step 8) removed,
everything else verbatim. -/
def evaluateKycV2NoCombined (input : KycInputV2) : KycResult :=
  match v2sanctions input (.approve, []) with
  | .inl r => r
  | .inr s =>
    match v2highRisk input (v2pep input s) with
    | .inl r => r
    | .inr s =>
      match v2country input (v2velocity input (v2amount input (v2mediumRisk input s))) with
      | .inl r => r
      | .inr s =>
        let s := v2lowRisk input s
        { decision := s.1, reasons := s.2 }

/-- The record returned by the hook: `evaluate` and `version`. -/
structure UseKycEngine where
  evaluate : KycProfile → KycResult
  version : KycVersion

/-- `useKycEngine` from `useKycEngine.ts`, as a pure function of the
feature-flag state it reads: dispatch on `kycVersion === 'v2'`, attaching
the matching discriminator; expose the flag value as `version`. -/
def useKycEngine (flags : FeatureFlags) : UseKycEngine :=
  { evaluate := fun input =>
      if flags.kycVersion = .v2 then
        evaluateKycV2 (withVersionV2 input)
      else
        evaluateKycV1 (withVersionV1 input)
    version := flags.kycVersion }

/-! ## Step-level characterization lemmas -/

lemma v2pep_spec (i : KycInputV2) (l : List String) :
    v2pep i (.approve, l) =
      ((if pepB i then KycDecision.manual_review else .approve), l ++ pepPart i) := by
  unfold v2pep pepPart pepB
  cases h : truthyBool i.isPep <;> simp [h]

lemma v2mediumRisk_spec (i : KycInputV2) (d : KycDecision) (l : List String) :
    v2mediumRisk i (d, l) =
      ((if mediumB i then (if d = .approve then .manual_review else d) else d),
        l ++ mediumPart i) := by
  unfold v2mediumRisk mediumPart mediumB
  by_cases h : i.riskScore ≥ 50 ∧ i.riskScore < 75 <;> simp [h]

lemma v2amount_spec (i : KycInputV2) (d : KycDecision) (l : List String) :
    v2amount i (d, l) =
      ((if amountHighB i then (if d = .approve then .manual_review else d) else d),
        l ++ amountPart i) := by
  cases h : i.amount with
  | none => simp [v2amount, amountPart, amountHighB, h]
  | some a =>
    by_cases hc : a ≠ 0 ∧ a > amountThreshold <;>
      simp [v2amount, amountPart, amountHighB, h, hc]

lemma v2velocity_spec (i : KycInputV2) (d : KycDecision) (l : List String) :
    v2velocity i (d, l) =
      ((if velocityHighB i then (if d = .approve then .manual_review else d) else d),
        l ++ velocityPart i) := by
  cases h : i.velocity with
  | none => simp [v2velocity, velocityPart, velocityHighB, h]
  | some v =>
    by_cases hc : v ≠ 0 ∧ v > velocityThreshold <;>
      simp [v2velocity, velocityPart, velocityHighB, h, hc]

lemma v2state_after_velocity (i : KycInputV2) :
    v2velocity i (v2amount i (v2mediumRisk i (v2pep i (.approve, [])))) =
      (v2PreCountryDecision i, v2AccumulatedReasons i) := by
  rw [v2pep_spec, v2mediumRisk_spec, v2amount_spec, v2velocity_spec]
  unfold v2PreCountryDecision v2AccumulatedReasons
  cases hp : pepB i <;> cases hm : mediumB i <;> cases ha : amountHighB i <;>
    cases hv : velocityHighB i <;> simp [hp, hm, ha, hv]

lemma v2lowRisk_spec (i : KycInputV2) :
    v2lowRisk i (v2PreCountryDecision i, v2AccumulatedReasons i) =
      (v2PreCountryDecision i, v2AccumulatedReasons i ++ lowRiskPart i) := by
  unfold v2lowRisk lowRiskPart
  split_ifs <;> simp_all

lemma mediumB_of_combined (i : KycInputV2) (h60 : i.riskScore ≥ 60)
    (h75 : i.riskScore < 75) : mediumB i = true := by
  unfold mediumB
  have : i.riskScore ≥ 50 := le_trans (by norm_num) h60
  simp [this, h75]

lemma medium_mem_acc (i : KycInputV2) (hm : mediumB i = true) :
    "Risk score 50-74" ∈ v2AccumulatedReasons i := by
  unfold v2AccumulatedReasons mediumPart
  simp [hm]

lemma v2combined_identity (i : KycInputV2) (h75 : i.riskScore < 75) :
    v2combined i (v2PreCountryDecision i, v2AccumulatedReasons i) =
      (v2PreCountryDecision i, v2AccumulatedReasons i) := by
  unfold v2combined
  cases h : i.amount with
  | none => simp
  | some a =>
    by_cases hc : i.riskScore ≥ 60 ∧ a ≠ 0 ∧ a > amountThreshold * (1/2)
    · have hm : mediumB i = true := mediumB_of_combined i hc.1 h75
      have hmem : "Risk score 50-74" ∈ v2AccumulatedReasons i := medium_mem_acc i hm
      have hdec : v2PreCountryDecision i = .manual_review := by
        unfold v2PreCountryDecision; simp [hm]
      have hany : (v2AccumulatedReasons i).any
          (fun r => strContains r "Risk score" || strContains r "Amount") = true := by
        rw [List.any_eq_true]
        exact ⟨"Risk score 50-74", hmem, by decide⟩
      simp [hc, hdec, hany]
    · simp only [h]
      rw [if_neg hc]

/-! ## Whole-run characterization -/

lemma evaluateKycV2_eq (i : KycInputV2) :
    evaluateKycV2 i =
      if truthyBool i.sanctionsList then
        { decision := .deny, reasons := ["On sanctions list"] }
      else if i.riskScore ≥ 75 then
        { decision := .deny, reasons := pepPart i ++ ["Risk score 75+"] }
      else if restrictedCountries.contains i.country then
        { decision := .deny,
          reasons := v2AccumulatedReasons i ++ ["Restricted country: " ++ i.country] }
      else
        { decision := v2PreCountryDecision i,
          reasons := v2AccumulatedReasons i ++ lowRiskPart i } := by
  unfold evaluateKycV2
  by_cases hs : truthyBool i.sanctionsList
  · simp [v2sanctions, hs]
  · rw [show v2sanctions i (KycDecision.approve, ([] : List String)) =
        Sum.inr (KycDecision.approve, ([] : List String)) from by simp [v2sanctions, hs]]
    dsimp only
    by_cases h75 : i.riskScore ≥ 75
    · rw [v2pep_spec]
      simp [v2highRisk, hs, h75]
    · rw [show v2highRisk i (v2pep i (KycDecision.approve, ([] : List String))) =
          Sum.inr (v2pep i (KycDecision.approve, ([] : List String))) from by
        simp [v2highRisk, h75]]
      dsimp only
      rw [v2state_after_velocity]
      by_cases hc : i.country ∈ restrictedCountries
      · simp [v2country, hs, h75, hc]
      · rw [show v2country i (v2PreCountryDecision i, v2AccumulatedReasons i) =
            Sum.inr (v2PreCountryDecision i, v2AccumulatedReasons i) from by
          simp [v2country, hc]]
        dsimp only
        rw [v2combined_identity i (lt_of_not_ge h75), v2lowRisk_spec]
        simp [hs, h75, hc]

lemma evaluateKycV2NoCombined_eq (i : KycInputV2) :
    evaluateKycV2NoCombined i =
      if truthyBool i.sanctionsList then
        { decision := .deny, reasons := ["On sanctions list"] }
      else if i.riskScore ≥ 75 then
        { decision := .deny, reasons := pepPart i ++ ["Risk score 75+"] }
      else if restrictedCountries.contains i.country then
        { decision := .deny,
          reasons := v2AccumulatedReasons i ++ ["Restricted country: " ++ i.country] }
      else
        { decision := v2PreCountryDecision i,
          reasons := v2AccumulatedReasons i ++ lowRiskPart i } := by
  unfold evaluateKycV2NoCombined
  by_cases hs : truthyBool i.sanctionsList
  · simp [v2sanctions, hs]
  · rw [show v2sanctions i (KycDecision.approve, ([] : List String)) =
        Sum.inr (KycDecision.approve, ([] : List String)) from by simp [v2sanctions, hs]]
    dsimp only
    by_cases h75 : i.riskScore ≥ 75
    · rw [v2pep_spec]
      simp [v2highRisk, hs, h75]
    · rw [show v2highRisk i (v2pep i (KycDecision.approve, ([] : List String))) =
          Sum.inr (v2pep i (KycDecision.approve, ([] : List String))) from by
        simp [v2highRisk, h75]]
      dsimp only
      rw [v2state_after_velocity]
      by_cases hc : i.country ∈ restrictedCountries
      · simp [v2country, hs, h75, hc]
      · rw [show v2country i (v2PreCountryDecision i, v2AccumulatedReasons i) =
            Sum.inr (v2PreCountryDecision i, v2AccumulatedReasons i) from by
          simp [v2country, hc]]
        dsimp only
        rw [v2lowRisk_spec]
        simp [hs, h75, hc]

lemma velocityReason_ne_amount (v : Rat) :
    velocityReason v ≠ "Amount exceeds 100,000" := by
  unfold velocityReason
  intro h
  have h2 := congrArg String.data h
  simp [String.data_append] at h2

lemma velocityReason_ne_combined (v : Rat) :
    velocityReason v ≠ "Combined risk factors: medium risk score + high amount" := by
  unfold velocityReason
  intro h
  have h2 := congrArg String.data h
  simp [String.data_append] at h2

lemma countryReason_ne_amount (c : String) :
    "Restricted country: " ++ c ≠ "Amount exceeds 100,000" := by
  intro h
  have h2 := congrArg String.data h
  simp [String.data_append] at h2

lemma countryReason_ne_combined (c : String) :
    "Restricted country: " ++ c ≠ "Combined risk factors: medium risk score + high amount" := by
  intro h
  have h2 := congrArg String.data h
  simp [String.data_append] at h2

lemma pepPart_nil_iff (i : KycInputV2) : pepPart i = [] ↔ pepB i = false := by
  cases h : pepB i <;> simp [pepPart, h]

lemma mediumPart_nil_iff (i : KycInputV2) : mediumPart i = [] ↔ mediumB i = false := by
  cases h : mediumB i <;> simp [mediumPart, h]

lemma amountPart_nil_iff (i : KycInputV2) : amountPart i = [] ↔ amountHighB i = false := by
  cases h : amountHighB i <;> simp [amountPart, h]

lemma velocityPart_nil_iff (i : KycInputV2) :
    velocityPart i = [] ↔ velocityHighB i = false := by
  cases hv : i.velocity with
  | none => simp [velocityPart, velocityHighB, hv]
  | some v =>
    by_cases hc : v ≠ 0 ∧ v > velocityThreshold <;>
      simp [velocityPart, velocityHighB, hv, hc]

lemma amount_notin_pepPart (i : KycInputV2) :
    "Amount exceeds 100,000" ∉ pepPart i := by
  unfold pepPart
  split_ifs <;> simp

lemma amount_notin_mediumPart (i : KycInputV2) :
    "Amount exceeds 100,000" ∉ mediumPart i := by
  unfold mediumPart
  split_ifs <;> simp

lemma amount_mem_amountPart_iff (i : KycInputV2) :
    "Amount exceeds 100,000" ∈ amountPart i ↔ amountHighB i = true := by
  unfold amountPart
  split_ifs with h <;> simp [h]

lemma amount_notin_velocityPart (i : KycInputV2) :
    "Amount exceeds 100,000" ∉ velocityPart i := by
  unfold velocityPart
  cases hv : i.velocity with
  | none => simp
  | some v =>
    dsimp only
    split_ifs <;> simp [Ne.symm (velocityReason_ne_amount v)]

lemma amount_notin_lowRiskPart (i : KycInputV2) :
    "Amount exceeds 100,000" ∉ lowRiskPart i := by
  unfold lowRiskPart
  split_ifs <;> simp

lemma amount_mem_acc_iff (i : KycInputV2) :
    "Amount exceeds 100,000" ∈ v2AccumulatedReasons i ↔ amountHighB i = true := by
  unfold v2AccumulatedReasons
  simp [List.mem_append, amount_notin_pepPart i, amount_notin_mediumPart i,
    amount_mem_amountPart_iff i, amount_notin_velocityPart i]

lemma amountHighB_iff (i : KycInputV2) :
    amountHighB i = true ↔ ∃ a, i.amount = some a ∧ a ≠ 0 ∧ a > 100000 := by
  cases h : i.amount <;> simp [amountHighB, amountThreshold, h]

/-- C1: for every input with `sanctionsList = true`, `evaluateKycV2` returns
decision `deny` with reasons exactly ["On sanctions list"], regardless of all
other fields. -/
theorem kycV2_sanctions_deny (i : KycInputV2) (h : i.sanctionsList = some true) :
    evaluateKycV2 i = { decision := .deny, reasons := ["On sanctions list"] } := by
  rw [evaluateKycV2_eq]
  simp [truthyBool, h]

/-- C1 witness: a sanctioned profile with risk score 0, restricted country,
huge amount, PEP and high velocity is denied solely for sanctions. -/
theorem kycV2_sanctions_deny_witness :
    (⟨0, "XX", some 500000, some true, some 99, some true, "v2"⟩ : KycInputV2).sanctionsList
        = some true ∧
    evaluateKycV2 ⟨0, "XX", some 500000, some true, some 99, some true, "v2"⟩ =
      { decision := .deny, reasons := ["On sanctions list"] } :=
  ⟨rfl, kycV2_sanctions_deny _ rfl⟩

/-- C2: for every input with `riskScore >= 80`, `evaluateKycV1` returns
decision `deny` with reasons exactly ["Risk score 80+"], even when the
country is restricted. -/
theorem kycV1_highRisk_deny (i : KycInput) (h : i.riskScore ≥ 80) :
    evaluateKycV1 i = { decision := .deny, reasons := ["Risk score 80+"] } := by
  unfold evaluateKycV1
  rw [if_pos h]

/-- C2 witness: risk score 85 from restricted country "XX" is denied with
only the risk-score reason; the country reason is not emitted. -/
theorem kycV1_highRisk_deny_witness :
    (⟨85, "XX", none, "v1"⟩ : KycInput).riskScore ≥ 80 ∧
    "XX" ∈ restrictedCountries ∧
    evaluateKycV1 ⟨85, "XX", none, "v1"⟩ =
      { decision := .deny, reasons := ["Risk score 80+"] } :=
  ⟨by norm_num, by decide, kycV1_highRisk_deny _ (by norm_num)⟩

/-- C3: for every input with falsy `sanctionsList`, `riskScore < 75` and a
restricted country, `evaluateKycV2` denies and the reasons are exactly those
accumulated by the PEP, medium-risk, amount and velocity checks followed by
the restricted-country reason as the last element. -/
theorem kycV2_country_combines (i : KycInputV2)
    (hs : truthyBool i.sanctionsList = false) (hr : i.riskScore < 75)
    (hc : i.country ∈ restrictedCountries) :
    evaluateKycV2 i =
      { decision := .deny,
        reasons := v2AccumulatedReasons i ++ ["Restricted country: " ++ i.country] } := by
  rw [evaluateKycV2_eq]
  simp [hs, not_le.2 hr, hc]

/-- C3 witness: a PEP profile with medium risk, high amount and high velocity
from restricted country "XX" accumulates all four reasons before the
country reason. -/
theorem kycV2_country_combines_witness :
    truthyBool (⟨55, "XX", some 150000, some true, some 15, none, "v2"⟩ : KycInputV2).sanctionsList
        = false ∧
    (⟨55, "XX", some 150000, some true, some 15, none, "v2"⟩ : KycInputV2).riskScore < 75 ∧
    (⟨55, "XX", some 150000, some true, some 15, none, "v2"⟩ : KycInputV2).country
        ∈ restrictedCountries ∧
    evaluateKycV2 ⟨55, "XX", some 150000, some true, some 15, none, "v2"⟩ =
      { decision := .deny,
        reasons := v2AccumulatedReasons ⟨55, "XX", some 150000, some true, some 15, none, "v2"⟩
          ++ ["Restricted country: " ++ "XX"] } :=
  ⟨rfl, by norm_num, by decide, kycV2_country_combines _ rfl (by norm_num) (by decide)⟩

/-- C4: for every input with falsy `sanctionsList`, `isPep = true` and
`riskScore >= 75`, `evaluateKycV2` denies with reasons exactly
["PEP (Politically Exposed Person)", "Risk score 75+"] — the PEP reason
already appended survives the deny override. -/
theorem kycV2_pep_then_highRisk (i : KycInputV2)
    (hs : truthyBool i.sanctionsList = false) (hp : i.isPep = some true)
    (hr : i.riskScore ≥ 75) :
    evaluateKycV2 i =
      { decision := .deny,
        reasons := ["PEP (Politically Exposed Person)", "Risk score 75+"] } := by
  rw [evaluateKycV2_eq, if_neg (by simp [hs]), if_pos hr]
  simp [pepPart, pepB, truthyBool, hp]

/-- C4 witness: a PEP with risk score 80 and no sanctions is denied with the
PEP reason kept ahead of the risk-score reason. -/
theorem kycV2_pep_then_highRisk_witness :
    truthyBool (⟨80, "US", none, some true, none, none, "v2"⟩ : KycInputV2).sanctionsList
        = false ∧
    (⟨80, "US", none, some true, none, none, "v2"⟩ : KycInputV2).isPep = some true ∧
    (⟨80, "US", none, some true, none, none, "v2"⟩ : KycInputV2).riskScore ≥ 75 ∧
    evaluateKycV2 ⟨80, "US", none, some true, none, none, "v2"⟩ =
      { decision := .deny,
        reasons := ["PEP (Politically Exposed Person)", "Risk score 75+"] } :=
  ⟨rfl, rfl, by norm_num, kycV2_pep_then_highRisk _ rfl rfl (by norm_num)⟩

/-- C6: with falsy `sanctionsList` and `riskScore < 75`, the amount reason is
in the output exactly when `amount` is present, non-zero and strictly above
100000, and in that case the decision is not `approve`; in particular
`amount = 0` and `amount = 100000` produce no amount reason. -/
theorem kycV2_amount_truthy_iff (i : KycInputV2)
    (hs : truthyBool i.sanctionsList = false) (hr : i.riskScore < 75) :
    ("Amount exceeds 100,000" ∈ (evaluateKycV2 i).reasons ↔
      ∃ a, i.amount = some a ∧ a ≠ 0 ∧ a > 100000) ∧
    ((∃ a, i.amount = some a ∧ a ≠ 0 ∧ a > 100000) →
      (evaluateKycV2 i).decision ≠ .approve) := by
  have h75 : ¬ i.riskScore ≥ 75 := not_le.2 hr
  rw [evaluateKycV2_eq]
  rw [if_neg (by simp [hs]), if_neg h75]
  by_cases hc : restrictedCountries.contains i.country
  · rw [if_pos hc]
    constructor
    · rw [← amountHighB_iff]
      simp [List.mem_append, amount_mem_acc_iff i,
        Ne.symm (countryReason_ne_amount i.country)]
    · intro _
      simp
  · rw [if_neg hc]
    constructor
    · rw [← amountHighB_iff]
      simp [List.mem_append, amount_mem_acc_iff i, amount_notin_lowRiskPart i]
    · intro hex
      have ha : amountHighB i = true := (amountHighB_iff i).2 hex
      unfold v2PreCountryDecision
      simp [ha]

/-- C6 witness: amount 150000 at risk score 30 yields the amount reason and a
non-approve decision; the iff instantiated at a concrete profile. -/
theorem kycV2_amount_truthy_iff_witness :
    truthyBool (⟨30, "US", some 150000, none, none, none, "v2"⟩ : KycInputV2).sanctionsList
        = false ∧
    (⟨30, "US", some 150000, none, none, none, "v2"⟩ : KycInputV2).riskScore < 75 ∧
    (("Amount exceeds 100,000" ∈
        (evaluateKycV2 ⟨30, "US", some 150000, none, none, none, "v2"⟩).reasons ↔
      ∃ a, (⟨30, "US", some 150000, none, none, none, "v2"⟩ : KycInputV2).amount = some a ∧
        a ≠ 0 ∧ a > 100000) ∧
    ((∃ a, (⟨30, "US", some 150000, none, none, none, "v2"⟩ : KycInputV2).amount = some a ∧
        a ≠ 0 ∧ a > 100000) →
      (evaluateKycV2 ⟨30, "US", some 150000, none, none, none, "v2"⟩).decision ≠ .approve)) :=
  ⟨rfl, by norm_num, kycV2_amount_truthy_iff _ rfl (by norm_num)⟩

/-- C7: the selector dispatches to `evaluateKycV2` when the flag read is v2
and to `evaluateKycV1` otherwise, attaching the matching discriminator; the
store's initial flag value is v1 and `version` is exactly the flag read. -/
theorem kycEngine_dispatch (flags : FeatureFlags) (p : KycProfile) :
    (useKycEngine flags).evaluate p =
      (match flags.kycVersion with
        | KycVersion.v2 => evaluateKycV2 (withVersionV2 p)
        | KycVersion.v1 => evaluateKycV1 (withVersionV1 p)) ∧
    (withVersionV2 p).version = "v2" ∧
    (withVersionV1 p).version = "v1" ∧
    (useKycEngine flags).version = flags.kycVersion ∧
    initialFeatureFlags.kycVersion = KycVersion.v1 := by
  refine ⟨?_, rfl, rfl, rfl, rfl⟩
  cases h : flags.kycVersion <;> simp [useKycEngine, h]

lemma severity_le_two (d : KycDecision) : severity d ≤ 2 := by
  cases d <;> simp [severity]

lemma sev_mono_of_cases {s1 d : KycDecision}
    (h : d = s1 ∨ (s1 = .approve ∧ d = .manual_review)) :
    severity s1 ≤ severity d := by
  rcases h with h | ⟨h1, h2⟩
  · rw [h]
  · rw [h1, h2]
    simp [severity]

lemma v2mediumRisk_fst (i : KycInputV2) (s : KycState) :
    (v2mediumRisk i s).1 = s.1 ∨
      (s.1 = .approve ∧ (v2mediumRisk i s).1 = .manual_review) := by
  unfold v2mediumRisk
  split_ifs <;> simp_all

lemma v2amount_fst (i : KycInputV2) (s : KycState) :
    (v2amount i s).1 = s.1 ∨
      (s.1 = .approve ∧ (v2amount i s).1 = .manual_review) := by
  cases h : i.amount with
  | none => simp [v2amount, h]
  | some a =>
    simp only [v2amount, h]
    split_ifs <;> simp_all

lemma v2velocity_fst (i : KycInputV2) (s : KycState) :
    (v2velocity i s).1 = s.1 ∨
      (s.1 = .approve ∧ (v2velocity i s).1 = .manual_review) := by
  cases h : i.velocity with
  | none => simp [v2velocity, h]
  | some v =>
    simp only [v2velocity, h]
    split_ifs <;> simp_all

lemma v2combined_fst (i : KycInputV2) (s : KycState) :
    (v2combined i s).1 = s.1 ∨
      (s.1 = .approve ∧ (v2combined i s).1 = .manual_review) := by
  cases h : i.amount with
  | none => simp [v2combined, h]
  | some a =>
    simp only [v2combined, h]
    split_ifs <;> simp_all

lemma v2lowRisk_fst (i : KycInputV2) (s : KycState) :
    (v2lowRisk i s).1 = s.1 := by
  unfold v2lowRisk
  split_ifs <;> rfl

/-- C5: within one `evaluateKycV2` run the decision severity never
decreases along the trace of decision values, and the non-terminal steps 4,
5, 6 and 8 either leave the decision unchanged or upgrade `approve` to
`manual_review`. -/
theorem kycV2_monotone (i : KycInputV2) :
    List.Chain' (fun a b => severity a ≤ severity b) (decisionTrace i) ∧
    ∀ s : KycState,
      ((v2mediumRisk i s).1 = s.1 ∨
        (s.1 = .approve ∧ (v2mediumRisk i s).1 = .manual_review)) ∧
      ((v2amount i s).1 = s.1 ∨
        (s.1 = .approve ∧ (v2amount i s).1 = .manual_review)) ∧
      ((v2velocity i s).1 = s.1 ∨
        (s.1 = .approve ∧ (v2velocity i s).1 = .manual_review)) ∧
      ((v2combined i s).1 = s.1 ∨
        (s.1 = .approve ∧ (v2combined i s).1 = .manual_review)) := by
  refine ⟨?_, fun s =>
    ⟨v2mediumRisk_fst i s, v2amount_fst i s, v2velocity_fst i s, v2combined_fst i s⟩⟩
  unfold decisionTrace
  by_cases hs : truthyBool i.sanctionsList
  · rw [show v2sanctions i (KycDecision.approve, ([] : List String)) =
        Sum.inl ⟨KycDecision.deny, [] ++ ["On sanctions list"]⟩
        from by simp [v2sanctions, hs]]
    dsimp only
    simp [List.chain'_cons, severity]
  · rw [show v2sanctions i (KycDecision.approve, ([] : List String)) =
        Sum.inr (KycDecision.approve, ([] : List String)) from by simp [v2sanctions, hs]]
    dsimp only
    by_cases h75 : i.riskScore ≥ 75
    · rw [show v2highRisk i (v2pep i (KycDecision.approve, ([] : List String))) =
          Sum.inl ⟨KycDecision.deny, (v2pep i (KycDecision.approve, ([] : List String))).2
            ++ ["Risk score 75+"]⟩ from by simp [v2highRisk, h75]]
      dsimp only
      simp only [List.chain'_cons, List.chain'_singleton, and_true]
      exact ⟨Nat.zero_le _, severity_le_two _⟩
    · rw [show v2highRisk i (v2pep i (KycDecision.approve, ([] : List String))) =
          Sum.inr (v2pep i (KycDecision.approve, ([] : List String))) from by
        simp [v2highRisk, h75]]
      dsimp only
      by_cases hc : i.country ∈ restrictedCountries
      · rw [show v2country i (v2velocity i (v2amount i (v2mediumRisk i
              (v2pep i (KycDecision.approve, ([] : List String)))))) =
            Sum.inl ⟨KycDecision.deny, (v2velocity i (v2amount i (v2mediumRisk i
              (v2pep i (KycDecision.approve, ([] : List String)))))).2
              ++ ["Restricted country: " ++ i.country]⟩ from by simp [v2country, hc]]
        dsimp only
        simp only [List.chain'_cons, List.chain'_singleton, and_true]
        exact ⟨Nat.zero_le _, sev_mono_of_cases (v2mediumRisk_fst i _),
          sev_mono_of_cases (v2amount_fst i _), sev_mono_of_cases (v2velocity_fst i _),
          severity_le_two _⟩
      · rw [show v2country i (v2velocity i (v2amount i (v2mediumRisk i
              (v2pep i (KycDecision.approve, ([] : List String)))))) =
            Sum.inr (v2velocity i (v2amount i (v2mediumRisk i
              (v2pep i (KycDecision.approve, ([] : List String)))))) from by
          simp [v2country, hc]]
        dsimp only
        simp only [List.chain'_cons, List.chain'_singleton, and_true]
        exact ⟨Nat.zero_le _, sev_mono_of_cases (v2mediumRisk_fst i _),
          sev_mono_of_cases (v2amount_fst i _), sev_mono_of_cases (v2velocity_fst i _),
          sev_mono_of_cases (v2combined_fst i _),
          le_of_eq (congrArg severity (v2lowRisk_fst i _)).symm⟩

lemma evaluateKycV1_reasons_ne_nil (i : KycInput) :
    (evaluateKycV1 i).reasons ≠ [] := by
  by_cases h80 : i.riskScore ≥ 80
  · simp [evaluateKycV1, h80]
  · by_cases hm : i.riskScore ≥ 50 ∧ i.riskScore < 80
    · by_cases hc : i.country ∈ restrictedCountries <;>
        simp [evaluateKycV1, h80, hm, hc]
    · have h50 : i.riskScore < 50 := by
        by_contra hge
        exact hm ⟨le_of_not_lt hge, lt_of_not_ge h80⟩
      by_cases hc : i.country ∈ restrictedCountries <;>
        simp [evaluateKycV1, h80, hm, hc, h50]

lemma v2final_nonempty (i : KycInputV2) (h75 : ¬ i.riskScore ≥ 75) :
    v2AccumulatedReasons i ++ lowRiskPart i ≠ [] := by
  intro hnil
  have hparts : pepPart i = [] ∧ mediumPart i = [] ∧ amountPart i = [] ∧
      velocityPart i = [] ∧ lowRiskPart i = [] := by
    have h := hnil
    unfold v2AccumulatedReasons at h
    simpa [List.append_eq_nil] using h
  obtain ⟨hpep, hmed, hamt, hvel, hlow⟩ := hparts
  have hpepB := (pepPart_nil_iff i).1 hpep
  have hmedB := (mediumPart_nil_iff i).1 hmed
  have haB := (amountPart_nil_iff i).1 hamt
  have hvB := (velocityPart_nil_iff i).1 hvel
  have h50 : i.riskScore < 50 := by
    by_contra hge
    have hmt : mediumB i = true := by
      unfold mediumB
      simp [le_of_not_lt hge, lt_of_not_ge h75]
    rw [hmt] at hmedB
    exact Bool.noConfusion hmedB
  have hpre : v2PreCountryDecision i = .approve := by
    unfold v2PreCountryDecision
    simp [hpepB, hmedB, haB, hvB]
  have hnp : ¬ truthyBool i.isPep = true := by
    unfold pepB at hpepB
    simp [hpepB]
  have hlr : lowRiskPart i = ["Low risk profile"] := by
    unfold lowRiskPart
    rw [if_pos ⟨hpre, h50, hnp⟩]
  rw [hlr] at hlow
  exact List.noConfusion hlow

lemma evaluateKycV2_reasons_ne_nil (i : KycInputV2) :
    (evaluateKycV2 i).reasons ≠ [] := by
  rw [evaluateKycV2_eq]
  by_cases hs : truthyBool i.sanctionsList
  · simp [hs]
  · by_cases h75 : i.riskScore ≥ 75
    · simp [hs, h75]
    · rw [if_neg (by simp [hs]), if_neg h75]
      by_cases hc : i.country ∈ restrictedCountries
      · rw [if_pos (by simpa using hc)]
        simp
      · rw [if_neg (by simpa using hc)]
        exact v2final_nonempty i h75

lemma decision_cases (d : KycDecision) :
    d = .approve ∨ d = .manual_review ∨ d = .deny := by
  cases d <;> simp

/-- C8: for every input, both evaluators return a non-empty reasons list and
a decision that is one of the three enum values. -/
theorem kyc_totality (i1 : KycInput) (i2 : KycInputV2) :
    (evaluateKycV1 i1).reasons ≠ [] ∧ (evaluateKycV2 i2).reasons ≠ [] ∧
    ((evaluateKycV1 i1).decision = .approve ∨
      (evaluateKycV1 i1).decision = .manual_review ∨
      (evaluateKycV1 i1).decision = .deny) ∧
    ((evaluateKycV2 i2).decision = .approve ∨
      (evaluateKycV2 i2).decision = .manual_review ∨
      (evaluateKycV2 i2).decision = .deny) :=
  ⟨evaluateKycV1_reasons_ne_nil i1, evaluateKycV2_reasons_ne_nil i2,
    decision_cases _, decision_cases _⟩

lemma combined_notin_pepPart (i : KycInputV2) :
    "Combined risk factors: medium risk score + high amount" ∉ pepPart i := by
  unfold pepPart
  split_ifs <;> simp

lemma combined_notin_mediumPart (i : KycInputV2) :
    "Combined risk factors: medium risk score + high amount" ∉ mediumPart i := by
  unfold mediumPart
  split_ifs <;> simp

lemma combined_notin_amountPart (i : KycInputV2) :
    "Combined risk factors: medium risk score + high amount" ∉ amountPart i := by
  unfold amountPart
  split_ifs <;> simp

lemma combined_notin_velocityPart (i : KycInputV2) :
    "Combined risk factors: medium risk score + high amount" ∉ velocityPart i := by
  unfold velocityPart
  cases hv : i.velocity with
  | none => simp
  | some v =>
    dsimp only
    split_ifs <;> simp [Ne.symm (velocityReason_ne_combined v)]

lemma combined_notin_acc (i : KycInputV2) :
    "Combined risk factors: medium risk score + high amount"
      ∉ v2AccumulatedReasons i := by
  unfold v2AccumulatedReasons
  simp [List.mem_append, combined_notin_pepPart i, combined_notin_mediumPart i,
    combined_notin_amountPart i, combined_notin_velocityPart i]

lemma combined_notin_lowRiskPart (i : KycInputV2) :
    "Combined risk factors: medium risk score + high amount" ∉ lowRiskPart i := by
  unfold lowRiskPart
  split_ifs <;> simp

/-- C9: the combined-risk-factors step of `evaluateKycV2` is a no-op:
the function is extensionally equal to the variant with the block removed,
and the combined-risk reason string never appears in any output. -/
theorem kycV2_combined_noop (i : KycInputV2) :
    evaluateKycV2 i = evaluateKycV2NoCombined i ∧
    "Combined risk factors: medium risk score + high amount"
      ∉ (evaluateKycV2 i).reasons := by
  constructor
  · rw [evaluateKycV2_eq, evaluateKycV2NoCombined_eq]
  · rw [evaluateKycV2_eq]
    by_cases hs : truthyBool i.sanctionsList
    · simp [hs]
    · by_cases h75 : i.riskScore ≥ 75
      · simp [hs, h75, combined_notin_pepPart i]
      · rw [if_neg (by simp [hs]), if_neg h75]
        by_cases hc : i.country ∈ restrictedCountries
        · rw [if_pos (by simpa using hc)]
          simp [combined_notin_acc i, Ne.symm (countryReason_ne_combined i.country)]
        · rw [if_neg (by simpa using hc)]
          simp [combined_notin_acc i, combined_notin_lowRiskPart i]

/-- C10: with the flag at v1 the selector's result depends only on
`riskScore` and `country` (never on the v2-only fields or `amount`); in
particular a sanctioned low-risk profile from an unrestricted country is
approved with reasons ["Low risk score"] rather than denied. -/
theorem kycEngine_v1_independent (flags : FeatureFlags) (p q : KycProfile)
    (hv : flags.kycVersion = .v1) (hrs : p.riskScore = q.riskScore)
    (hc : p.country = q.country) :
    (useKycEngine flags).evaluate p = (useKycEngine flags).evaluate q ∧
    ∀ r : KycProfile, r.sanctionsList = some true → r.riskScore < 50 →
      r.country ∉ restrictedCountries →
      (useKycEngine flags).evaluate r =
        { decision := .approve, reasons := ["Low risk score"] } := by
  have heval : ∀ r : KycProfile,
      (useKycEngine flags).evaluate r = evaluateKycV1 (withVersionV1 r) := by
    intro r
    simp [useKycEngine, hv]
  constructor
  · rw [heval, heval]
    simp [evaluateKycV1, withVersionV1, hrs, hc]
  · intro r _hsanc h50 hcountry
    rw [heval]
    have h80 : ¬ r.riskScore ≥ 80 := not_le.2 (lt_trans h50 (by norm_num))
    have hm : ¬ (r.riskScore ≥ 50 ∧ r.riskScore < 80) :=
      fun h => absurd h.1 (not_le.2 h50)
    simp [evaluateKycV1, withVersionV1, h80, hm, hcountry, h50]

/-- C10 witness: at the default v1 flag, two profiles agreeing on risk score
and country (one sanctioned with extreme v2 fields, one without) evaluate
identically, and the sanctioned low-risk profile is approved. -/
theorem kycEngine_v1_independent_witness :
    initialFeatureFlags.kycVersion = KycVersion.v1 ∧
    (⟨10, "US", none, none, none, some true⟩ : KycProfile).riskScore =
      (⟨10, "US", some 999999, some true, some 50, none⟩ : KycProfile).riskScore ∧
    (⟨10, "US", none, none, none, some true⟩ : KycProfile).country =
      (⟨10, "US", some 999999, some true, some 50, none⟩ : KycProfile).country ∧
    ((useKycEngine initialFeatureFlags).evaluate ⟨10, "US", none, none, none, some true⟩ =
        (useKycEngine initialFeatureFlags).evaluate
          ⟨10, "US", some 999999, some true, some 50, none⟩ ∧
      ∀ r : KycProfile, r.sanctionsList = some true → r.riskScore < 50 →
        r.country ∉ restrictedCountries →
        (useKycEngine initialFeatureFlags).evaluate r =
          { decision := .approve, reasons := ["Low risk score"] }) :=
  ⟨rfl, rfl, rfl,
    kycEngine_v1_independent initialFeatureFlags _ _ rfl rfl rfl⟩
